import Mathlib

/-!
Shallow embedding of the timetable solver (`src/app.py`).

The data model mirrors the dictionaries built by
`AdvancedTimetableSolver.load_data_from_dataframes`; the session generator
mirrors `_generate_sessions`; the constraint predicates give the logical
semantics of the CP model built by `solve_with_constraints`,
`_add_basic_constraints`, `_add_no_overlap_constraints` and
`_add_advanced_constraints`; the decoder mirrors `_extract_solution`.
Slot variables are modelled as integers (`Int`), matching the solver's
integer variables; an assignment is a map from session id to value.
-/

namespace Timetable

/-- A teacher record, as loaded from the `profs` dataframe. -/
structure Prof where
  id : Nat
  nom : String
  matieres : List Nat
  max_daily_sessions : Nat
  unavailable_slots : List Nat
deriving DecidableEq

/-- A class-group record, as loaded from the `classes` dataframe. -/
structure Classe where
  id : Nat
  nom : String
  unavailable_slots : List Nat
deriving DecidableEq

/-- A room record, as loaded from the `salles` dataframe. -/
structure Salle where
  id : Nat
  nom : String
  type : String
  capacite : Nat
  equipment : List String
  unavailable_slots : List Nat
deriving DecidableEq

/-- A subject record, as loaded from the `matieres` dataframe. -/
structure Matiere where
  id : Nat
  nom : String
  type : String
  duree : Nat
  required_equipment : List String
  profs_compatibles : List Nat
deriving DecidableEq

/-- A candidate teaching session, as built by `_generate_sessions`. -/
structure Session where
  id : String
  matiere_id : Nat
  matiere_nom : String
  prof_id : Nat
  prof_nom : String
  classe_id : Nat
  classe_nom : String
  salle_id : Nat
  salle_nom : String
  duree : Nat
  type : String
deriving DecidableEq

/-- The compatible-teacher pool for a subject: teachers whose subject list
contains the subject id, falling back to the full teacher list when the
filter is empty (`_generate_sessions`, lines 94-96). -/
def profs_compatibles (professeurs : List Prof) (matiere : Matiere) : List Prof :=
  if (professeurs.filter (fun p => decide (matiere.id ∈ p.matieres))).isEmpty
  then professeurs
  else professeurs.filter (fun p => decide (matiere.id ∈ p.matieres))

/-- The compatible-room pool for a subject: rooms whose equipment contains
every required equipment tag, falling back to the full room list when the
filter is empty (`_generate_sessions`, lines 100-105). -/
def salles_compatibles (salles : List Salle) (matiere : Matiere) : List Salle :=
  if (salles.filter (fun s =>
      matiere.required_equipment.all (fun eq => eq ∈ s.equipment))).isEmpty
  then salles
  else salles.filter (fun s =>
    matiere.required_equipment.all (fun eq => eq ∈ s.equipment))

/-- The (subject, class, teacher, room) tuples enumerated by the nested loops
of `_generate_sessions`, in emission order, before ids are attached. -/
def session_tuples (professeurs : List Prof) (classes : List Classe)
    (salles : List Salle) (matieres : List Matiere) :
    List (Matiere × Classe × Prof × Salle) :=
  matieres.flatMap (fun m =>
    classes.flatMap (fun c =>
      ((profs_compatibles professeurs m).take 2).flatMap (fun p =>
        ((salles_compatibles salles m).take 2).map (fun s => (m, c, p, s)))))

/-- Build one session record from its counter value and its tuple, exactly as
the dictionary literal at lines 108-120 of `_generate_sessions`. -/
def mk_session (k : Nat) (t : Matiere × Classe × Prof × Salle) : Session :=
  { id := "S" ++ Nat.repr k
    matiere_id := t.1.id
    matiere_nom := t.1.nom
    prof_id := t.2.2.1.id
    prof_nom := t.2.2.1.nom
    classe_id := t.2.1.id
    classe_nom := t.2.1.nom
    salle_id := t.2.2.2.id
    salle_nom := t.2.2.2.nom
    duree := t.1.duree
    type := t.1.type }

/-- `_generate_sessions`: enumerate the tuples and attach ids from the
monotonically increasing counter `session_id`. -/
def generate_sessions (professeurs : List Prof) (classes : List Classe)
    (salles : List Salle) (matieres : List Matiere) : List Session :=
  (session_tuples professeurs classes salles matieres).enum.map
    (fun p => mk_session p.1 p.2)

/-- The solver's configuration and loaded data (`AdvancedTimetableSolver`
fields set in `__init__` and `load_data_from_dataframes`). -/
structure Solver where
  days : Nat
  slots_per_day : Nat
  professeurs : List Prof
  classes : List Classe
  salles : List Salle
  matieres : List Matiere
deriving DecidableEq

/-- Derived total slot count, `days * slots_per_day`. -/
def Solver.total_slots (sv : Solver) : Nat := sv.days * sv.slots_per_day

/-- The session list the solver works on, regenerated from the loaded data. -/
def sessions_of (sv : Solver) : List Session :=
  generate_sessions sv.professeurs sv.classes sv.salles sv.matieres

/-- The advanced-constraint flags passed to `solve_with_constraints`. -/
structure Constraints where
  no_friday_afternoon : Bool
  limit_daily_sessions : Bool
  specialized_rooms : Bool
deriving DecidableEq

/-- Domain of every start variable, `NewIntVar(0, total_slots - 1)`
(`solve_with_constraints`, lines 130-132): each session's value lies in
the raw full range. -/
def domain_ok (sv : Solver) (sessions : List Session) (σ : String → Int) : Prop :=
  ∀ s ∈ sessions, 0 ≤ σ s.id ∧ σ s.id ≤ (sv.total_slots : Int) - 1

/-- The pairwise meaning of one `AddNoOverlap` constraint over the interval
variables `(start, duration, start + duration)` of a session list:
two intervals never share a time point. -/
def intervals_disjoint (σ : String → Int) (a b : Session) : Prop :=
  σ a.id + a.duree ≤ σ b.id ∨ σ b.id + b.duree ≤ σ a.id

/-- Semantics of `_add_no_overlap_constraints` for one session group: no
constraint is posted when the group has at most one session, otherwise all
intervals are pairwise disjoint. -/
def no_overlap_ok (σ : String → Int) (sessions : List Session) : Prop :=
  if sessions.length ≤ 1 then True
  else sessions.Pairwise (intervals_disjoint σ)

/-- Semantics of `_add_basic_constraints`: one no-overlap group per teacher,
per room and per class, each over the sessions referencing that resource. -/
def basic_constraints_ok (sv : Solver) (sessions : List Session)
    (σ : String → Int) : Prop :=
  (∀ p ∈ sv.professeurs, no_overlap_ok σ (sessions.filter (fun s => s.prof_id == p.id))) ∧
  (∀ r ∈ sv.salles, no_overlap_ok σ (sessions.filter (fun s => s.salle_id == r.id))) ∧
  (∀ c ∈ sv.classes, no_overlap_ok σ (sessions.filter (fun s => s.classe_id == c.id)))

/-- The Friday-afternoon slot list, `range(4*slots_per_day + 4,
(4+1)*slots_per_day)` (`_add_advanced_constraints`, line 195). -/
def friday_afternoon_slots (spd : Nat) : List Nat :=
  List.range' (4 * spd + 4) (5 * spd - (4 * spd + 4))

/-- Semantics of the `no_friday_afternoon` constraint loop (lines 192-197):
for every session, the start variable differs from every Friday-afternoon
slot.  Only the start value is constrained. -/
def no_friday_ok (spd : Nat) (sessions : List Session) (σ : String → Int) : Prop :=
  ∀ s ∈ sessions, ∀ t ∈ friday_afternoon_slots spd, σ s.id ≠ (t : Int)

/-- Semantics of the four half-reified links posted for one `is_this_day`
boolean (lines 214-217): when the boolean is true the start value lies in
`[day*spd, (day+1)*spd - 1]`; when it is false the start value is required
to be both below and above that range. -/
def day_indicator_ok (spd day : Nat) (v : Int) (b : Bool) : Prop :=
  (b = true → ((day * spd : Nat) : Int) ≤ v) ∧
  (b = true → v ≤ (((day + 1) * spd : Nat) : Int) - 1) ∧
  (b = false → v < ((day * spd : Nat) : Int)) ∧
  (b = false → v > (((day + 1) * spd : Nat) : Int) - 1)

/-- Semantics of the daily-limit constraint for one teacher and one day
(lines 205-223): some valuation of the fresh `is_this_day` booleans satisfies
every link, and the number of true booleans is at most the teacher's cap. -/
def limit_daily_day_ok (spd maxd day : Nat) (group : List Session)
    (σ : String → Int) : Prop :=
  ∃ b : Fin group.length → Bool,
    (∀ i : Fin group.length, day_indicator_ok spd day (σ (group.get i).id) (b i)) ∧
    (Finset.univ.filter (fun i : Fin group.length => b i = true)).card ≤ maxd

/-- Semantics of the `limit_daily_sessions` branch (lines 200-223): the
per-day constraint holds for every teacher and every day. -/
def limit_daily_ok (sv : Solver) (sessions : List Session) (σ : String → Int) : Prop :=
  ∀ p ∈ sv.professeurs, ∀ day ∈ List.range sv.days,
    limit_daily_day_ok sv.slots_per_day p.max_daily_sessions day
      (sessions.filter (fun s => s.prof_id == p.id)) σ

/-- Semantics of `_add_advanced_constraints`: each block is active only when
its flag is set.  The `specialized_rooms` branch posts no constraint
(lines 226-241 compute but add nothing to the model). -/
def advanced_constraints_ok (sv : Solver) (c : Constraints)
    (sessions : List Session) (σ : String → Int) : Prop :=
  (c.no_friday_afternoon = true → no_friday_ok sv.slots_per_day sessions σ) ∧
  (c.limit_daily_sessions = true → limit_daily_ok sv sessions σ)

/-- A satisfying assignment of the model built by `solve_with_constraints`:
variable domains plus basic plus advanced constraints. -/
def model_constraints_ok (sv : Solver) (c : Constraints) (σ : String → Int) : Prop :=
  domain_ok sv (sessions_of sv) σ ∧
  basic_constraints_ok sv (sessions_of sv) σ ∧
  advanced_constraints_ok sv c (sessions_of sv) σ

/-- The objective posted at lines 138-140: the sum of the raw start-slot
variables over all sessions. -/
def objective (sessions : List Session) (σ : String → Int) : Int :=
  (sessions.map (fun s => σ s.id)).sum

/-- One row of the timetable returned by `_extract_solution`
(the dictionary literal at lines 259-271). -/
structure ScheduleRecord where
  id_session : String
  jour : String
  creneau : String
  classe : String
  matiere : String
  type : String
  professeur : String
  salle : String
  duree_label : String
  jour_index : Int
  creneau_index : Int
deriving DecidableEq

/-- The French day names list at line 255. -/
def days_fr : List String :=
  ["Lundi", "Mardi", "Mercredi", "Jeudi", "Vendredi", "Samedi", "Dimanche"]

/-- Zero-padded two-digit rendering used by the `{:02d}` format at line 262. -/
def fmt2 (n : Int) : String :=
  if 0 ≤ n ∧ n < 10 then "0" ++ n.repr else n.repr

/-- The display start hour computed at line 256: the constant base `8` plus
the slot index within the day. -/
def heure_debut_of (slot_in_day : Int) : Int := 8 + slot_in_day

/-- The display end hour computed at line 257: start hour plus duration. -/
def heure_fin_of (slot_in_day : Int) (duree : Nat) : Int :=
  heure_debut_of slot_in_day + duree

/-- Build one schedule row from a session and its resolved slot value,
exactly as the body of the `if` at lines 249-271. -/
def mk_record (spd : Nat) (σ : String → Int) (s : Session) : ScheduleRecord :=
  let slot_value := σ s.id
  let day := slot_value / spd
  let slot_in_day := slot_value % spd
  { id_session := s.id
    jour := days_fr.getD day.toNat ""
    creneau := fmt2 (heure_debut_of slot_in_day) ++ "h-" ++
      fmt2 (heure_fin_of slot_in_day s.duree) ++ "h"
    classe := s.classe_nom
    matiere := s.matiere_nom
    type := s.type
    professeur := s.prof_nom
    salle := s.salle_nom
    duree_label := Nat.repr s.duree ++ "h"
    jour_index := day
    creneau_index := slot_in_day }

/-- `_extract_solution`: walk the sessions in order and keep a row for every
session whose resolved value is at least `0`. -/
def extract_solution (spd : Nat) (σ : String → Int) : List Session → List ScheduleRecord
  | [] => []
  | s :: rest =>
    if 0 ≤ σ s.id then mk_record spd σ s :: extract_solution spd σ rest
    else extract_solution spd σ rest

/-- The success rate computed in `solver_stats` (line 418):
`(planned / total) * 100`, as an exact rational. -/
def taux_reussite (planifiees totales : Nat) : ℚ :=
  ((planifiees : ℚ) / (totales : ℚ)) * 100

/-- The sidebar configuration values (lines 287-289): days-per-week slider
`1..7`, slots-per-day slider `1..12`, start-hour input `6..12`. -/
structure UIConfig where
  jours : Nat
  creneaux_par_jour : Nat
  heure_debut : Nat
deriving DecidableEq

/-- Validity of a sidebar configuration, from the widget bounds. -/
def valid_ui_config (cfg : UIConfig) : Prop :=
  1 ≤ cfg.jours ∧ cfg.jours ≤ 7 ∧
  1 ≤ cfg.creneaux_par_jour ∧ cfg.creneaux_par_jour ≤ 12 ∧
  6 ≤ cfg.heure_debut ∧ cfg.heure_debut ≤ 12

/-- Erase the unavailability list of a teacher record. -/
def erase_indispo_prof (p : Prof) : Prof := { p with unavailable_slots := [] }

/-- Erase the unavailability list of a class record. -/
def erase_indispo_classe (c : Classe) : Classe := { c with unavailable_slots := [] }

/-- Erase the unavailability list of a room record. -/
def erase_indispo_salle (r : Salle) : Salle := { r with unavailable_slots := [] }

/-- Erase every `indispo`-derived field of a solver's loaded data; two inputs
are "identical except for unavailability" exactly when their erasures are
equal. -/
def erase_indispo (sv : Solver) : Solver :=
  { sv with
    professeurs := sv.professeurs.map erase_indispo_prof
    classes := sv.classes.map erase_indispo_classe
    salles := sv.salles.map erase_indispo_salle }

/-- Modelled from the spec (§3 invariant for claim C3, for comparison with
the code's raw domain): the admissible start domain as the union over days of
`[day*slots_per_day, (day+1)*slots_per_day - duration]`. -/
def spec_admissible_start (days spd duration : Nat) (v : Int) : Prop :=
  ∃ day ∈ List.range days,
    ((day * spd : Nat) : Int) ≤ v ∧ v ≤ (((day + 1) * spd : Nat) : Int) - duration

section DecInstances

instance (σ : String → Int) : DecidableRel (intervals_disjoint σ) := fun _ _ => by
  unfold intervals_disjoint; exact inferInstance

instance (sv : Solver) (sessions : List Session) (σ : String → Int) :
    Decidable (domain_ok sv sessions σ) := by
  unfold domain_ok; exact inferInstance

instance (σ : String → Int) (sessions : List Session) :
    Decidable (no_overlap_ok σ sessions) := by
  unfold no_overlap_ok; exact inferInstance

instance (sv : Solver) (sessions : List Session) (σ : String → Int) :
    Decidable (basic_constraints_ok sv sessions σ) := by
  unfold basic_constraints_ok; exact inferInstance

instance (spd : Nat) (sessions : List Session) (σ : String → Int) :
    Decidable (no_friday_ok spd sessions σ) := by
  unfold no_friday_ok; exact inferInstance

instance (spd day : Nat) (v : Int) (b : Bool) :
    Decidable (day_indicator_ok spd day v b) := by
  unfold day_indicator_ok; exact inferInstance

instance (spd maxd day : Nat) (group : List Session) (σ : String → Int) :
    Decidable (limit_daily_day_ok spd maxd day group σ) := by
  unfold limit_daily_day_ok; exact inferInstance

instance (sv : Solver) (sessions : List Session) (σ : String → Int) :
    Decidable (limit_daily_ok sv sessions σ) := by
  unfold limit_daily_ok; exact inferInstance

instance (sv : Solver) (c : Constraints) (sessions : List Session) (σ : String → Int) :
    Decidable (advanced_constraints_ok sv c sessions σ) := by
  unfold advanced_constraints_ok; exact inferInstance

instance (sv : Solver) (c : Constraints) (σ : String → Int) :
    Decidable (model_constraints_ok sv c σ) := by
  unfold model_constraints_ok; exact inferInstance

instance (days spd duration : Nat) (v : Int) :
    Decidable (spec_admissible_start days spd duration v) := by
  unfold spec_admissible_start; exact inferInstance

instance (cfg : UIConfig) : Decidable (valid_ui_config cfg) := by
  unfold valid_ui_config; exact inferInstance

end DecInstances

/-! Concrete instances used by witnesses and counterexamples. -/

/-- A teacher whose subject list contains subject `7`. -/
def prof1 : Prof :=
  { id := 1, nom := "P1", matieres := [7], max_daily_sessions := 6, unavailable_slots := [] }

/-- The same teacher with an empty subject list (triggers the teacher
fallback for subject `7`). -/
def prof1_nomat : Prof := { prof1 with matieres := [] }

/-- The same teacher with a nonempty unavailability list. -/
def prof1_indispo : Prof := { prof1 with unavailable_slots := [3] }

/-- A class group. -/
def classe1 : Classe := { id := 1, nom := "C1", unavailable_slots := [] }

/-- A second class group. -/
def classe2 : Classe := { id := 2, nom := "C2", unavailable_slots := [] }

/-- A room with no equipment. -/
def salle1 : Salle :=
  { id := 1, nom := "R1", type := "standard", capacite := 30,
    equipment := [], unavailable_slots := [] }

/-- A two-slot subject taught by teacher `1`, no equipment required. -/
def mat7 : Matiere :=
  { id := 7, nom := "Maths", type := "CM", duree := 2,
    required_equipment := [], profs_compatibles := [1] }

/-- The same subject with duration one slot. -/
def mat7_d1 : Matiere := { mat7 with duree := 1 }

/-- Five days of eight slots, one teacher, one class, one room, one two-slot
subject: exactly one generated session. -/
def sv1 : Solver :=
  { days := 5, slots_per_day := 8, professeurs := [prof1],
    classes := [classe1], salles := [salle1], matieres := [mat7] }

/-- One day of eight slots, one teacher, two classes, one room, one one-slot
subject: two generated sessions sharing teacher and room. -/
def sv2 : Solver :=
  { days := 1, slots_per_day := 8, professeurs := [prof1],
    classes := [classe1, classe2], salles := [salle1], matieres := [mat7_d1] }

/-- `sv2` with the teacher's unavailability list changed, nothing else. -/
def sv2_indispo : Solver := { sv2 with professeurs := [prof1_indispo] }

/-- All three advanced-constraint flags enabled (the sidebar defaults). -/
def c_all : Constraints :=
  { no_friday_afternoon := true, limit_daily_sessions := true, specialized_rooms := true }

/-- Both slot-restricting flags disabled. -/
def c_none : Constraints :=
  { no_friday_afternoon := false, limit_daily_sessions := false, specialized_rooms := true }

/-- Friday policy on, daily-limit policy off. -/
def c_fri : Constraints :=
  { no_friday_afternoon := true, limit_daily_sessions := false, specialized_rooms := true }

/-- Constant assignment at slot `5`. -/
def sigma5 : String → Int := fun _ => 5

/-- Constant assignment at slot `7` (last slot of day `0`). -/
def sigma7 : String → Int := fun _ => 7

/-- Constant assignment at slot `35` (Friday, one slot before afternoon). -/
def sigma35 : String → Int := fun _ => 35

/-- Assignment placing session `S0` at slot `0` and every other session at
slot `1`. -/
def sigma01 : String → Int := fun id => if id = "S0" then 0 else 1

/-- Constant assignment at slot `0`. -/
def sigma0 : String → Int := fun _ => 0

/-- The session generated from teacher `prof1`, class `classe1`, room
`salle1` and subject `mat7`, with counter value `0`. -/
def session0 : Session := mk_session 0 (mat7, classe1, prof1, salle1)

/-- The sidebar configuration selecting start hour `9`. -/
def cfg9 : UIConfig := { jours := 5, creneaux_par_jour := 8, heure_debut := 9 }

/-- The record decoded from `sv2`'s first session under `sigma01`. -/
def record0 : ScheduleRecord :=
  mk_record 8 sigma01 (mk_session 0 (mat7_d1, classe1, prof1, salle1))

/-! Injectivity of the decimal rendering used for session ids. -/

/-- Decimal digit list of a natural number, most significant digit first;
a structurally transparent reformulation of `Nat.toDigits 10`. -/
def dec_digits (n : Nat) : List Char :=
  if n < 10 then [Nat.digitChar n]
  else dec_digits (n / 10) ++ [Nat.digitChar (n % 10)]
decreasing_by exact Nat.div_lt_self (by omega) (by omega)

theorem dec_digits_lt {n : Nat} (h : n < 10) : dec_digits n = [Nat.digitChar n] := by
  rw [dec_digits, if_pos h]

theorem dec_digits_ge {n : Nat} (h : ¬ n < 10) :
    dec_digits n = dec_digits (n / 10) ++ [Nat.digitChar (n % 10)] := by
  conv_lhs => rw [dec_digits]
  rw [if_neg h]

theorem toDigitsCore_eq_dec_digits :
    ∀ fuel n acc, n < fuel →
      Nat.toDigitsCore 10 fuel n acc = dec_digits n ++ acc := by
  intro fuel
  induction fuel with
  | zero => intro n acc h; omega
  | succ fuel ih =>
    intro n acc h
    simp only [Nat.toDigitsCore]
    by_cases h10 : n / 10 = 0
    · have hlt : n < 10 := by omega
      have hmod : n % 10 = n := Nat.mod_eq_of_lt hlt
      rw [if_pos h10, dec_digits_lt hlt, hmod]
      rfl
    · have hge : ¬ n < 10 := by omega
      have hdivlt : n / 10 < fuel := by
        have hds : n / 10 < n := Nat.div_lt_self (by omega) (by omega)
        omega
      rw [if_neg h10, ih (n / 10) _ hdivlt, dec_digits_ge hge, List.append_assoc]
      rfl

theorem toDigits_eq_dec_digits (n : Nat) : Nat.toDigits 10 n = dec_digits n := by
  have := toDigitsCore_eq_dec_digits (n + 1) n [] (by omega)
  simpa [Nat.toDigits] using this

theorem repr_eq_dec_digits (n : Nat) : Nat.repr n = (dec_digits n).asString := by
  rw [Nat.repr, toDigits_eq_dec_digits]

theorem digitChar_inj_lt :
    ∀ a, a < 10 → ∀ b, b < 10 → Nat.digitChar a = Nat.digitChar b → a = b := by
  decide

theorem dec_digits_ne_nil (n : Nat) : dec_digits n ≠ [] := by
  rw [dec_digits]
  split <;> simp

theorem dec_digits_inj : ∀ n m, dec_digits n = dec_digits m → n = m := by
  intro n
  induction n using Nat.strong_induction_on with
  | _ n ih =>
    intro m h
    by_cases hn : n < 10 <;> by_cases hm : m < 10
    · rw [dec_digits_lt hn, dec_digits_lt hm] at h
      exact digitChar_inj_lt n hn m hm (by simpa using h)
    · rw [dec_digits_lt hn, dec_digits_ge hm] at h
      have hlen := congrArg List.length h
      simp only [List.length_append, List.length_singleton] at hlen
      have hz : (dec_digits (m / 10)).length = 0 := by omega
      exact absurd (List.length_eq_zero.mp hz) (dec_digits_ne_nil _)
    · rw [dec_digits_ge hn, dec_digits_lt hm] at h
      have hlen := congrArg List.length h
      simp only [List.length_append, List.length_singleton] at hlen
      have hz : (dec_digits (n / 10)).length = 0 := by omega
      exact absurd (List.length_eq_zero.mp hz) (dec_digits_ne_nil _)
    · rw [dec_digits_ge hn, dec_digits_ge hm] at h
      have hparts := List.append_inj' h (by simp)
      have hdiv : n / 10 = m / 10 :=
        ih (n / 10) (Nat.div_lt_self (by omega) (by omega)) (m / 10) hparts.1
      have hmod : n % 10 = m % 10 :=
        digitChar_inj_lt _ (Nat.mod_lt n (by omega)) _ (Nat.mod_lt m (by omega))
          (by simpa using hparts.2)
      omega

theorem nat_repr_injective : Function.Injective Nat.repr := by
  intro a b h
  exact dec_digits_inj a b (List.asString_inj.mp
    (by rwa [← repr_eq_dec_digits, ← repr_eq_dec_digits]))

/-- The id-rendering function of `_generate_sessions` is injective. -/
theorem session_id_render_injective :
    Function.Injective (fun k : Nat => "S" ++ Nat.repr k) := by
  intro a b h
  apply nat_repr_injective
  apply String.ext
  have hdata := congrArg String.data h
  rw [String.data_append, String.data_append] at hdata
  exact List.append_cancel_left hdata

/-! Structural lemmas about the session generator. -/

theorem profs_compatibles_subset (P : List Prof) (m : Matiere) :
    profs_compatibles P m ⊆ P := by
  unfold profs_compatibles
  split
  · exact fun _ h => h
  · exact List.filter_subset' P

theorem salles_compatibles_subset (S : List Salle) (m : Matiere) :
    salles_compatibles S m ⊆ S := by
  unfold salles_compatibles
  split
  · exact fun _ h => h
  · exact List.filter_subset' S

theorem generate_sessions_length (P : List Prof) (C : List Classe)
    (S : List Salle) (M : List Matiere) :
    (generate_sessions P C S M).length = (session_tuples P C S M).length := by
  simp [generate_sessions]

theorem generate_sessions_map_id (P : List Prof) (C : List Classe)
    (S : List Salle) (M : List Matiere) :
    (generate_sessions P C S M).map Session.id =
      (List.range (generate_sessions P C S M).length).map
        (fun k => "S" ++ Nat.repr k) := by
  rw [generate_sessions_length]
  unfold generate_sessions
  rw [List.map_map]
  have hid : (Session.id ∘ fun p : Nat × (Matiere × Classe × Prof × Salle) =>
      mk_session p.1 p.2) = (fun k => "S" ++ Nat.repr k) ∘ Prod.fst := rfl
  rw [hid, ← List.map_map, List.enum_eq_zip_range, List.map_fst_zip _ _ (by simp)]

theorem generate_sessions_ids_nodup (P : List Prof) (C : List Classe)
    (S : List Salle) (M : List Matiere) :
    ((generate_sessions P C S M).map Session.id).Nodup := by
  rw [generate_sessions_map_id]
  exact (List.nodup_range _).map session_id_render_injective

/-- Every generated session is built by `mk_session` from a subject of the
input list, a class of the input list, a teacher of the subject's pool and a
room of the subject's pool. -/
theorem mem_generate_sessions {P : List Prof} {C : List Classe} {S : List Salle}
    {M : List Matiere} {s : Session} (h : s ∈ generate_sessions P C S M) :
    ∃ k, ∃ m ∈ M, ∃ c ∈ C, ∃ p ∈ (profs_compatibles P m).take 2,
      ∃ r ∈ (salles_compatibles S m).take 2, s = mk_session k (m, c, p, r) := by
  unfold generate_sessions at h
  obtain ⟨⟨k, t⟩, hmem, rfl⟩ := List.mem_map.mp h
  have ht : t ∈ session_tuples P C S M := by
    rw [List.enum_eq_zip_range] at hmem
    exact (List.of_mem_zip hmem).2
  unfold session_tuples at ht
  obtain ⟨m, hm, ht⟩ := List.mem_flatMap.mp ht
  obtain ⟨c, hc, ht⟩ := List.mem_flatMap.mp ht
  obtain ⟨p, hp, ht⟩ := List.mem_flatMap.mp ht
  obtain ⟨r, hr, ht⟩ := List.mem_map.mp ht
  exact ⟨k, m, hm, c, hc, p, hp, r, hr, by rw [← ht]⟩

theorem session_prof_mem {P : List Prof} {C : List Classe} {S : List Salle}
    {M : List Matiere} {s : Session} (h : s ∈ generate_sessions P C S M) :
    ∃ p ∈ P, s.prof_id = p.id := by
  obtain ⟨k, m, _, c, _, p, hp, r, _, rfl⟩ := mem_generate_sessions h
  exact ⟨p, profs_compatibles_subset P m (List.take_subset 2 _ hp), rfl⟩

theorem session_salle_mem {P : List Prof} {C : List Classe} {S : List Salle}
    {M : List Matiere} {s : Session} (h : s ∈ generate_sessions P C S M) :
    ∃ r ∈ S, s.salle_id = r.id := by
  obtain ⟨k, m, _, c, _, p, _, r, hr, rfl⟩ := mem_generate_sessions h
  exact ⟨r, salles_compatibles_subset S m (List.take_subset 2 _ hr), rfl⟩

theorem session_classe_mem {P : List Prof} {C : List Classe} {S : List Salle}
    {M : List Matiere} {s : Session} (h : s ∈ generate_sessions P C S M) :
    ∃ c ∈ C, s.classe_id = c.id := by
  obtain ⟨k, m, _, c, hc, p, _, r, _, rfl⟩ := mem_generate_sessions h
  exact ⟨c, hc, rfl⟩

/-! Lemmas about the no-overlap groups. -/

theorem intervals_disjoint_symm (σ : String → Int) :
    Symmetric (intervals_disjoint σ) := by
  intro a b h
  exact h.symm

theorem no_overlap_ok_pairwise {σ : String → Int} {l : List Session}
    (h : no_overlap_ok σ l) : l.Pairwise (intervals_disjoint σ) := by
  unfold no_overlap_ok at h
  by_cases hlen : l.length ≤ 1
  · match l, hlen with
    | [], _ => exact List.Pairwise.nil
    | [a], _ => exact List.pairwise_singleton _ a
    | a :: b :: t, hlen => simp at hlen
  · rw [if_neg hlen] at h
    exact h

/-! Extraction keeps every session whose value is nonnegative. -/

theorem extract_solution_all {spd : Nat} {σ : String → Int} :
    ∀ {l : List Session}, (∀ s ∈ l, 0 ≤ σ s.id) →
      extract_solution spd σ l = l.map (mk_record spd σ)
  | [], _ => rfl
  | a :: t, h => by
    rw [extract_solution, if_pos (h a (by simp)), List.map_cons,
      extract_solution_all (fun s hs => h s (by simp [hs]))]

/-! Unavailability erasure does not change the generator or the model. -/

theorem profs_compatibles_erase (P : List Prof) (m : Matiere) :
    profs_compatibles (P.map erase_indispo_prof) m =
      (profs_compatibles P m).map erase_indispo_prof := by
  unfold profs_compatibles
  have hf : (P.map erase_indispo_prof).filter (fun p => decide (m.id ∈ p.matieres)) =
      (P.filter (fun p => decide (m.id ∈ p.matieres))).map erase_indispo_prof :=
    List.filter_map erase_indispo_prof P
  rw [hf]
  by_cases h : (P.filter (fun p => decide (m.id ∈ p.matieres))).isEmpty
  · rw [if_pos h, if_pos (by simp [List.isEmpty_iff, List.isEmpty_iff.mp h])]
  · rw [if_neg h, if_neg (by simp [List.isEmpty_iff] at h ⊢; exact h)]

theorem salles_compatibles_erase (S : List Salle) (m : Matiere) :
    salles_compatibles (S.map erase_indispo_salle) m =
      (salles_compatibles S m).map erase_indispo_salle := by
  unfold salles_compatibles
  have hf : (S.map erase_indispo_salle).filter (fun s =>
        m.required_equipment.all (fun eq => eq ∈ s.equipment)) =
      (S.filter (fun s => m.required_equipment.all (fun eq => eq ∈ s.equipment))).map
        erase_indispo_salle :=
    List.filter_map erase_indispo_salle S
  rw [hf]
  by_cases h : (S.filter (fun s =>
      m.required_equipment.all (fun eq => eq ∈ s.equipment))).isEmpty
  · rw [if_pos h, if_pos (by simp [List.isEmpty_iff, List.isEmpty_iff.mp h])]
  · rw [if_neg h, if_neg (by simp [List.isEmpty_iff] at h ⊢; exact h)]

theorem session_tuples_erase (P : List Prof) (C : List Classe) (S : List Salle)
    (M : List Matiere) :
    session_tuples (P.map erase_indispo_prof) (C.map erase_indispo_classe)
        (S.map erase_indispo_salle) M =
      (session_tuples P C S M).map (fun t =>
        (t.1, erase_indispo_classe t.2.1, erase_indispo_prof t.2.2.1,
          erase_indispo_salle t.2.2.2)) := by
  unfold session_tuples
  rw [List.map_flatMap]
  refine List.flatMap_congr ?_
  intro m _
  rw [List.flatMap_map, List.map_flatMap]
  refine List.flatMap_congr ?_
  intro c _
  rw [profs_compatibles_erase, ← List.map_take, List.flatMap_map, List.map_flatMap]
  refine List.flatMap_congr ?_
  intro p _
  rw [salles_compatibles_erase, ← List.map_take, List.map_map, List.map_map]
  rfl

theorem generate_sessions_erase (P : List Prof) (C : List Classe) (S : List Salle)
    (M : List Matiere) :
    generate_sessions (P.map erase_indispo_prof) (C.map erase_indispo_classe)
        (S.map erase_indispo_salle) M = generate_sessions P C S M := by
  unfold generate_sessions
  rw [session_tuples_erase, List.enum_map, List.map_map]
  rfl

theorem sessions_of_erase (sv : Solver) :
    sessions_of (erase_indispo sv) = sessions_of sv := by
  unfold sessions_of erase_indispo
  exact generate_sessions_erase sv.professeurs sv.classes sv.salles sv.matieres

theorem model_constraints_ok_erase (sv : Solver) (c : Constraints)
    (σ : String → Int) :
    model_constraints_ok (erase_indispo sv) c σ ↔ model_constraints_ok sv c σ := by
  unfold model_constraints_ok
  rw [sessions_of_erase]
  have hdom : domain_ok (erase_indispo sv) (sessions_of sv) σ ↔
      domain_ok sv (sessions_of sv) σ := Iff.rfl
  have hbasic : basic_constraints_ok (erase_indispo sv) (sessions_of sv) σ ↔
      basic_constraints_ok sv (sessions_of sv) σ := by
    unfold basic_constraints_ok erase_indispo
    simp only [List.forall_mem_map]
    exact Iff.rfl
  have hadv : advanced_constraints_ok (erase_indispo sv) c (sessions_of sv) σ ↔
      advanced_constraints_ok sv c (sessions_of sv) σ := by
    unfold advanced_constraints_ok
    have hlim : limit_daily_ok (erase_indispo sv) (sessions_of sv) σ ↔
        limit_daily_ok sv (sessions_of sv) σ := by
      unfold limit_daily_ok erase_indispo
      simp only [List.forall_mem_map]
      exact Iff.rfl
    rw [hlim]
    exact Iff.rfl
  rw [hdom, hbasic, hadv]

/-- The false branch of the day-indicator links (lines 216-217) demands a
value both below and above the day's range, which is impossible when
`slots_per_day` is positive; hence the links force the indicator true and
the start value into the day's range, for every day. -/
theorem day_indicator_forces_mem {spd day : Nat} {v : Int} {b : Bool}
    (hspd : 0 < spd) (h : day_indicator_ok spd day v b) :
    ((day * spd : Nat) : Int) ≤ v ∧ v ≤ (((day + 1) * spd : Nat) : Int) - 1 := by
  obtain ⟨h1, h2, h3, h4⟩ := h
  cases hb : b
  · have l3 := h3 hb
    have l4 := h4 hb
    have hmul : (day + 1) * spd = day * spd + spd := Nat.succ_mul day spd
    have hmono : ((day * spd : Nat) : Int) ≤ (((day + 1) * spd : Nat) : Int) - 1 := by
      rw [hmul]
      generalize day * spd = x
      push_cast
      omega
    omega
  · exact ⟨h1 hb, h2 hb⟩

/-! Claim theorems. -/

/-- C1: the objective posted by `solve_with_constraints` is the raw sum of
the start-slot values, not the number of scheduled sessions.  On the
one-session instance `sv1` assigned slot `5`, the objective evaluates to `5`
while exactly one session is scheduled, and `5 ≠ 1`. -/
theorem c1_objective_is_raw_slot_sum :
    objective (sessions_of sv1) sigma5 = 5 ∧
    (extract_solution 8 sigma5 (sessions_of sv1)).length = 1 ∧
    (5 : Int) ≠ 1 := by
  decide

/-- C2: the `limit_daily_sessions` encoding does not link the `is_this_day`
indicator bidirectionally to day membership.  The negative branch posts an
unsatisfiable conjunction, so on the five-day instance `sv1` with the flag
enabled the whole model admits no assignment at all; moreover for a value
(`10`) outside day `0`'s range, no boolean satisfies the posted links,
whereas the claimed iff-link would be satisfied by `false`. -/
theorem c2_limit_daily_infeasible :
    ((∃ σ : String → Int, model_constraints_ok sv1 c_all σ) ↔ False) ∧
    ((day_indicator_ok 8 0 10 true ∨ day_indicator_ok 8 0 10 false) ↔ False) := by
  constructor
  · constructor
    · rintro ⟨σ, hdom, hbasic, hadv⟩
      have hlim := hadv.2 rfl
      have hmem : prof1 ∈ sv1.professeurs := by decide
      obtain ⟨b0, hb0, hc0⟩ := hlim prof1 hmem 0 (by decide)
      obtain ⟨b1, hb1, hc1⟩ := hlim prof1 hmem 1 (by decide)
      have hpos : 0 < ((sessions_of sv1).filter
          (fun s => s.prof_id == prof1.id)).length := by decide
      have hd0 := day_indicator_forces_mem (by decide) (hb0 ⟨0, hpos⟩)
      have hd1 := day_indicator_forces_mem (by decide) (hb1 ⟨0, hpos⟩)
      have hspd : sv1.slots_per_day = 8 := rfl
      rw [hspd] at hd0 hd1
      omega
    · exact False.elim
  · constructor
    · intro h
      rcases h with h | h <;> revert h <;> decide
    · exact False.elim

/-- C3 counterexample: the start domains are not restricted to the per-day
union.  On `sv1` (duration-two sessions) the assignment at slot `7` satisfies
every model constraint, yet `7` is outside the spec's admissible union and
the assigned interval `[7, 9)` crosses from day `0` into day `1`. -/
theorem c3_counterexample_day_spanning :
    model_constraints_ok sv1 c_none sigma7 ∧
    (∀ s ∈ sessions_of sv1, s.duree = 2) ∧
    (spec_admissible_start 5 8 2 7 ↔ False) ∧
    (7 : Int) / 8 = 0 ∧ ((7 : Int) + 2 - 1) / 8 = 1 := by
  decide

/-- C3 amended: every start variable's admissible domain is the raw full
range `[0, total_slots - 1]`; only duration-one sessions are guaranteed to
stay within a single day. -/
theorem c3_domain_is_full_range (sv : Solver) (c : Constraints) (σ : String → Int)
    (h : model_constraints_ok sv c σ) :
    ∀ s ∈ sessions_of sv, 0 ≤ σ s.id ∧ σ s.id ≤ (sv.total_slots : Int) - 1 ∧
      (s.duree = 1 →
        σ s.id / sv.slots_per_day = (σ s.id + s.duree - 1) / sv.slots_per_day) := by
  intro s hs
  obtain ⟨hdom, _, _⟩ := h
  obtain ⟨h0, h1⟩ := hdom s hs
  refine ⟨h0, h1, ?_⟩
  intro hd
  rw [hd]
  norm_num

/-- C3 witness: the amended statement instantiated on the feasible concrete
instance `sv2` with assignment `sigma01`. -/
theorem c3_domain_is_full_range_witness :
    model_constraints_ok sv2 c_all sigma01 ∧
    (∀ s ∈ sessions_of sv2, 0 ≤ sigma01 s.id ∧
      sigma01 s.id ≤ (sv2.total_slots : Int) - 1 ∧
      (s.duree = 1 →
        sigma01 s.id / sv2.slots_per_day =
          (sigma01 s.id + s.duree - 1) / sv2.slots_per_day)) :=
  ⟨by decide, c3_domain_is_full_range sv2 c_all sigma01 (by decide)⟩

/-- C4 counterexample: with `no_friday_afternoon` enabled, the assignment
placing `sv1`'s duration-two session at slot `35` satisfies every model
constraint even though its covered range `[35, 37)` contains the
Friday-afternoon slot `36`: only the start slot is checked. -/
theorem c4_counterexample_straddle :
    model_constraints_ok sv1 c_fri sigma35 ∧
    36 ∈ friday_afternoon_slots 8 ∧
    (∀ s ∈ sessions_of sv1, sigma35 s.id ≤ (36 : Int) ∧
      (36 : Int) < sigma35 s.id + s.duree) := by
  decide

/-- C4 amended: the `no_friday_afternoon` constraint rejects a start value
only when the start itself is a Friday-afternoon slot; the covered range is
protected only for duration-one sessions. -/
theorem c4_forbids_start_only (spd : Nat) (sessions : List Session)
    (σ : String → Int) (h : no_friday_ok spd sessions σ) :
    ∀ s ∈ sessions, ∀ t ∈ friday_afternoon_slots spd,
      σ s.id ≠ (t : Int) ∧
      (s.duree = 1 → ¬ (σ s.id ≤ (t : Int) ∧ (t : Int) < σ s.id + s.duree)) := by
  intro s hs t ht
  refine ⟨h s hs t ht, ?_⟩
  rintro hd ⟨hle, hlt⟩
  rw [hd] at hlt
  have heq : σ s.id = (t : Int) := by push_cast at hlt; omega
  exact h s hs t ht heq

/-- C4 witness: the amended statement instantiated on `sv2` under
`sigma01`, which satisfies the Friday constraint. -/
theorem c4_forbids_start_only_witness :
    no_friday_ok 8 (sessions_of sv2) sigma01 ∧
    (∀ s ∈ sessions_of sv2, ∀ t ∈ friday_afternoon_slots 8,
      sigma01 s.id ≠ (t : Int) ∧
      (s.duree = 1 → ¬ (sigma01 s.id ≤ (t : Int) ∧
        (t : Int) < sigma01 s.id + s.duree))) :=
  ⟨by decide, c4_forbids_start_only 8 (sessions_of sv2) sigma01 (by decide)⟩

/-- C5: in every satisfying assignment of the compiled model, two distinct
sessions sharing a teacher, a room or a class group have disjoint assigned
intervals, thanks to the per-resource no-overlap groups of
`_add_basic_constraints`. -/
theorem c5_shared_resource_no_overlap (sv : Solver) (c : Constraints)
    (σ : String → Int) (h : model_constraints_ok sv c σ) :
    ∀ s1 ∈ sessions_of sv, ∀ s2 ∈ sessions_of sv, s1 ≠ s2 →
      (s1.prof_id = s2.prof_id ∨ s1.salle_id = s2.salle_id ∨
        s1.classe_id = s2.classe_id) →
      (σ s1.id + s1.duree ≤ σ s2.id ∨ σ s2.id + s2.duree ≤ σ s1.id) := by
  intro s1 h1 s2 h2 hne hshare
  obtain ⟨_, ⟨hprof, hsalle, hclasse⟩, _⟩ := h
  rcases hshare with hp | hr | hc
  · obtain ⟨p, hpmem, hpid⟩ := session_prof_mem (P := sv.professeurs) h1
    have pw := no_overlap_ok_pairwise (hprof p hpmem)
    have m1 : s1 ∈ (sessions_of sv).filter (fun s => s.prof_id == p.id) :=
      List.mem_filter.mpr ⟨h1, by simp [hpid]⟩
    have m2 : s2 ∈ (sessions_of sv).filter (fun s => s.prof_id == p.id) :=
      List.mem_filter.mpr ⟨h2, by simp [← hp, hpid]⟩
    exact List.Pairwise.forall (intervals_disjoint_symm σ) pw m1 m2 hne
  · obtain ⟨r, hrmem, hrid⟩ := session_salle_mem (S := sv.salles) h1
    have pw := no_overlap_ok_pairwise (hsalle r hrmem)
    have m1 : s1 ∈ (sessions_of sv).filter (fun s => s.salle_id == r.id) :=
      List.mem_filter.mpr ⟨h1, by simp [hrid]⟩
    have m2 : s2 ∈ (sessions_of sv).filter (fun s => s.salle_id == r.id) :=
      List.mem_filter.mpr ⟨h2, by simp [← hr, hrid]⟩
    exact List.Pairwise.forall (intervals_disjoint_symm σ) pw m1 m2 hne
  · obtain ⟨cg, hcmem, hcid⟩ := session_classe_mem (C := sv.classes) h1
    have pw := no_overlap_ok_pairwise (hclasse cg hcmem)
    have m1 : s1 ∈ (sessions_of sv).filter (fun s => s.classe_id == cg.id) :=
      List.mem_filter.mpr ⟨h1, by simp [hcid]⟩
    have m2 : s2 ∈ (sessions_of sv).filter (fun s => s.classe_id == cg.id) :=
      List.mem_filter.mpr ⟨h2, by simp [← hc, hcid]⟩
    exact List.Pairwise.forall (intervals_disjoint_symm σ) pw m1 m2 hne

/-- C5 witness: the theorem instantiated on the feasible two-session
instance `sv2` (both sessions share teacher and room) under `sigma01`. -/
theorem c5_shared_resource_no_overlap_witness :
    model_constraints_ok sv2 c_all sigma01 ∧
    (∀ s1 ∈ sessions_of sv2, ∀ s2 ∈ sessions_of sv2, s1 ≠ s2 →
      (s1.prof_id = s2.prof_id ∨ s1.salle_id = s2.salle_id ∨
        s1.classe_id = s2.classe_id) →
      (sigma01 s1.id + s1.duree ≤ sigma01 s2.id ∨
        sigma01 s2.id + s2.duree ≤ sigma01 s1.id)) :=
  ⟨by decide, c5_shared_resource_no_overlap sv2 c_all sigma01 (by decide)⟩

/-- C6 counterexample: the teacher fallback is silent.  Replacing the only
teacher's subject list `[7]` by `[]` (so that no teacher is compatible with
subject `7` and the fallback fires) produces exactly the same session list:
no annotation distinguishes the fallback, and the generated session's
teacher is not in the subject's compatible set. -/
theorem c6_fallback_silent :
    generate_sessions [prof1_nomat] [classe1] [salle1] [mat7] =
      generate_sessions [prof1] [classe1] [salle1] [mat7] ∧
    (mat7.id ∈ prof1_nomat.matieres ↔ False) ∧
    mat7.id ∈ prof1.matieres ∧
    (∀ s ∈ generate_sessions [prof1_nomat] [classe1] [salle1] [mat7],
      s.prof_id = prof1_nomat.id) := by
  decide

/-- C6 amended: every generated session's teacher belongs to the subject's
compatible-teacher set unless that set is empty, in which case the teacher
is silently drawn from the full teacher list with no recorded annotation. -/
theorem c6_compatible_unless_pool_empty (P : List Prof) (C : List Classe)
    (S : List Salle) (M : List Matiere) :
    ∀ s ∈ generate_sessions P C S M, ∃ m ∈ M, s.matiere_id = m.id ∧
      ((∃ p ∈ P, m.id ∈ p.matieres ∧ s.prof_id = p.id) ∨
       ((P.filter (fun p => decide (m.id ∈ p.matieres))).isEmpty ∧
        ∃ p ∈ P, s.prof_id = p.id)) := by
  intro s hs
  obtain ⟨k, m, hm, c, hc, p, hp, r, hr, rfl⟩ := mem_generate_sessions hs
  refine ⟨m, hm, rfl, ?_⟩
  have hp' : p ∈ profs_compatibles P m := List.take_subset 2 _ hp
  unfold profs_compatibles at hp'
  by_cases hemp : (P.filter (fun p => decide (m.id ∈ p.matieres))).isEmpty
  · rw [if_pos hemp] at hp'
    exact Or.inr ⟨hemp, p, hp', rfl⟩
  · rw [if_neg hemp] at hp'
    have hmem := List.mem_filter.mp hp'
    exact Or.inl ⟨p, hmem.1, by simpa using hmem.2, rfl⟩

/-- C6 witness: the amended statement instantiated on the compatible
one-teacher input, at the generated session `session0`. -/
theorem c6_compatible_unless_pool_empty_witness :
    session0 ∈ generate_sessions [prof1] [classe1] [salle1] [mat7] ∧
    (∃ m ∈ [mat7], session0.matiere_id = m.id ∧
      ((∃ p ∈ [prof1], m.id ∈ p.matieres ∧ session0.prof_id = p.id) ∨
       (([prof1].filter (fun p => decide (m.id ∈ p.matieres))).isEmpty ∧
        ∃ p ∈ [prof1], session0.prof_id = p.id))) :=
  ⟨by decide,
    c6_compatible_unless_pool_empty [prof1] [classe1] [salle1] [mat7] session0
      (by decide)⟩

/-- C7 counterexample: the decoder's display start hour uses the constant
base `8`, not the configured start hour.  Under the valid configuration
`cfg9` (start hour `9`), a session resolved at slot `0` is displayed as
`08h-09h`, and `heure_debut_of 0 = 8 ≠ 9 + 0`. -/
theorem c7_counterexample_base_hour :
    valid_ui_config cfg9 ∧
    heure_debut_of 0 = 8 ∧
    ¬ (heure_debut_of 0 = (cfg9.heure_debut : Int) + 0) ∧
    (∀ r ∈ extract_solution 8 sigma0 (sessions_of sv2), r.creneau = "08h-09h") := by
  decide

/-- C7 amended: every decoded record satisfies `day = slot div
slots_per_day`, `slot_in_day = slot mod slots_per_day`, display start hour
`= 8 + slot_in_day` (with the hard-coded base `8`), and end hour `= start
hour + duration`. -/
theorem c7_decode_formulas (spd : Nat) (σ : String → Int) :
    ∀ (l : List Session), ∀ r ∈ extract_solution spd σ l, ∃ s ∈ l,
      0 ≤ σ s.id ∧
      r.jour_index = σ s.id / spd ∧
      r.creneau_index = σ s.id % spd ∧
      r.creneau = fmt2 (heure_debut_of (σ s.id % spd)) ++ "h-" ++
        fmt2 (heure_fin_of (σ s.id % spd) s.duree) ++ "h" ∧
      heure_debut_of (σ s.id % spd) = 8 + σ s.id % spd ∧
      heure_fin_of (σ s.id % spd) s.duree =
        heure_debut_of (σ s.id % spd) + s.duree := by
  intro l
  induction l with
  | nil => intro r hr; simp [extract_solution] at hr
  | cons a t ih =>
    intro r hr
    rw [extract_solution] at hr
    by_cases ha : 0 ≤ σ a.id
    · rw [if_pos ha] at hr
      rcases List.mem_cons.mp hr with heq | hmem
      · exact ⟨a, by simp, ha, by rw [heq]; rfl, by rw [heq]; rfl,
          by rw [heq]; rfl, rfl, rfl⟩
      · obtain ⟨s, hs, rest⟩ := ih r hmem
        exact ⟨s, by simp [hs], rest⟩
    · rw [if_neg ha] at hr
      obtain ⟨s, hs, rest⟩ := ih r hr
      exact ⟨s, by simp [hs], rest⟩

/-- C7 witness: the amended statement instantiated at the concrete decoded
record `record0` of `sv2` under `sigma01`. -/
theorem c7_decode_formulas_witness :
    record0 ∈ extract_solution 8 sigma01 (sessions_of sv2) ∧
    (∃ s ∈ sessions_of sv2,
      0 ≤ sigma01 s.id ∧
      record0.jour_index = sigma01 s.id / 8 ∧
      record0.creneau_index = sigma01 s.id % 8 ∧
      record0.creneau = fmt2 (heure_debut_of (sigma01 s.id % 8)) ++ "h-" ++
        fmt2 (heure_fin_of (sigma01 s.id % 8) s.duree) ++ "h" ∧
      heure_debut_of (sigma01 s.id % 8) = 8 + sigma01 s.id % 8 ∧
      heure_fin_of (sigma01 s.id % 8) s.duree =
        heure_debut_of (sigma01 s.id % 8) + s.duree) :=
  ⟨by decide, c7_decode_formulas 8 sigma01 (sessions_of sv2) record0 (by decide)⟩

/-- C8: session ids are exactly `"S0", "S1", ...` in emission order (the
canonical rendering of the increasing counter), they are pairwise distinct,
and generation is deterministic: equal inputs give equal outputs. -/
theorem c8_session_ids_unique_deterministic (P P2 : List Prof) (C C2 : List Classe)
    (S S2 : List Salle) (M M2 : List Matiere)
    (hP : P = P2) (hC : C = C2) (hS : S = S2) (hM : M = M2) :
    generate_sessions P C S M = generate_sessions P2 C2 S2 M2 ∧
    ((generate_sessions P C S M).map Session.id =
      (List.range (generate_sessions P C S M).length).map
        (fun k => "S" ++ Nat.repr k)) ∧
    ((generate_sessions P C S M).map Session.id).Nodup :=
  ⟨by rw [hP, hC, hS, hM], generate_sessions_map_id P C S M,
    generate_sessions_ids_nodup P C S M⟩

/-- C8 witness: the theorem instantiated on the concrete one-session input,
with the equal-input hypotheses discharged by reflexivity. -/
theorem c8_session_ids_unique_deterministic_witness :
    generate_sessions [prof1] [classe1] [salle1] [mat7] =
      generate_sessions [prof1] [classe1] [salle1] [mat7] ∧
    ((generate_sessions [prof1] [classe1] [salle1] [mat7]).map Session.id =
      (List.range (generate_sessions [prof1] [classe1] [salle1] [mat7]).length).map
        (fun k => "S" ++ Nat.repr k)) ∧
    ((generate_sessions [prof1] [classe1] [salle1] [mat7]).map Session.id).Nodup :=
  c8_session_ids_unique_deterministic [prof1] [prof1] [classe1] [classe1]
    [salle1] [salle1] [mat7] [mat7] rfl rfl rfl rfl

/-- C9: whenever the assignment respects the variable domains (as any
OPTIMAL or FEASIBLE backend assignment does), extraction keeps every
session — the `value ≥ 0` test never fails — so the timetable has exactly
one record per generated session and the reported success rate is `100`. -/
theorem c9_all_sessions_reported (sv : Solver) (σ : String → Int)
    (h : domain_ok sv (sessions_of sv) σ) :
    extract_solution sv.slots_per_day σ (sessions_of sv) =
      (sessions_of sv).map (mk_record sv.slots_per_day σ) ∧
    (extract_solution sv.slots_per_day σ (sessions_of sv)).length =
      (sessions_of sv).length ∧
    (sessions_of sv ≠ [] →
      taux_reussite (extract_solution sv.slots_per_day σ (sessions_of sv)).length
        (sessions_of sv).length = 100) := by
  have hext := @extract_solution_all sv.slots_per_day σ (sessions_of sv)
    (fun s hs => (h s hs).1)
  refine ⟨hext, by rw [hext, List.length_map], ?_⟩
  intro hne
  rw [hext, List.length_map]
  unfold taux_reussite
  rw [div_self, one_mul]
  exact Nat.cast_ne_zero.mpr (fun h0 => hne (List.length_eq_zero.mp h0))

/-- C9 witness: the theorem instantiated on `sv2` under `sigma01`, whose
values lie in the domain. -/
theorem c9_all_sessions_reported_witness :
    domain_ok sv2 (sessions_of sv2) sigma01 ∧
    (extract_solution sv2.slots_per_day sigma01 (sessions_of sv2) =
      (sessions_of sv2).map (mk_record sv2.slots_per_day sigma01) ∧
    (extract_solution sv2.slots_per_day sigma01 (sessions_of sv2)).length =
      (sessions_of sv2).length ∧
    (sessions_of sv2 ≠ [] →
      taux_reussite
        (extract_solution sv2.slots_per_day sigma01 (sessions_of sv2)).length
        (sessions_of sv2).length = 100)) :=
  ⟨by decide, c9_all_sessions_reported sv2 sigma01 (by decide)⟩

/-- C10: the loaded `unavailable_slots` fields are never read by the
generator, the compiled constraints, the objective or the decoder: two
inputs identical except for unavailability yield the same sessions, a model
satisfied by exactly the same assignments, the same objective and the same
timetable. -/
theorem c10_unavailability_ignored (svA svB : Solver) (c : Constraints)
    (σ : String → Int) (h : erase_indispo svA = erase_indispo svB) :
    sessions_of svA = sessions_of svB ∧
    (model_constraints_ok svA c σ ↔ model_constraints_ok svB c σ) ∧
    objective (sessions_of svA) σ = objective (sessions_of svB) σ ∧
    extract_solution svA.slots_per_day σ (sessions_of svA) =
      extract_solution svB.slots_per_day σ (sessions_of svB) := by
  have hsess : sessions_of svA = sessions_of svB := by
    rw [← sessions_of_erase svA, ← sessions_of_erase svB, h]
  have hspd : svA.slots_per_day = svB.slots_per_day := by
    have hproj := congrArg Solver.slots_per_day h
    simpa [erase_indispo] using hproj
  refine ⟨hsess, ?_, by rw [hsess], by rw [hsess, hspd]⟩
  rw [← model_constraints_ok_erase svA, ← model_constraints_ok_erase svB, h]

/-- C10 witness: the theorem instantiated on `sv2` and `sv2_indispo`, which
differ only in the teacher's unavailability list. -/
theorem c10_unavailability_ignored_witness :
    erase_indispo sv2 = erase_indispo sv2_indispo ∧
    sv2 ≠ sv2_indispo ∧
    (sessions_of sv2 = sessions_of sv2_indispo ∧
    (model_constraints_ok sv2 c_all sigma01 ↔
      model_constraints_ok sv2_indispo c_all sigma01) ∧
    objective (sessions_of sv2) sigma01 =
      objective (sessions_of sv2_indispo) sigma01 ∧
    extract_solution sv2.slots_per_day sigma01 (sessions_of sv2) =
      extract_solution sv2_indispo.slots_per_day sigma01 (sessions_of sv2_indispo)) :=
  ⟨by decide, by decide,
    c10_unavailability_ignored sv2 sv2_indispo c_all sigma01 (by decide)⟩

end Timetable
